import Mathlib

/-!
Verification of the race-condition / idempotency scanner core of
`web-Payment-scanner` against its specification.

The Go sources are shallowly embedded: pure helpers become Lean functions,
network I/O is an explicit oracle (`Nat → Option …` per worker id), the
wall clock (`time.Now()`) is an explicit `now : Nat` argument, and Go
operations that can panic (slice indexing) are modelled in `Option`, with
`none` standing for a runtime panic.
-/

/-! ## Go string helpers

`findSubstring` / `goContains` transcribe the helper pair at the bottom of
the enhanced race scanner (`contains` / `findSubstring`); the standard
library `strings.Contains` used elsewhere in the scanner is the same
substring predicate. Go's byte indexing is modelled by `Char` list
indexing (all scanned literals are ASCII).
-/

/-- Transcription of the scanner's `findSubstring(s, substr)`: scan every
start offset `i` from `0` to `len(s)-len(substr)` and compare the slice
`s[i:i+len(substr)]` with `substr`. -/
def findSubstring (s substr : String) : Bool :=
  (List.range (s.data.length - substr.data.length + 1)).any fun i =>
    decide ((s.data.drop i).take substr.data.length = substr.data)

/-- Transcription of the scanner's `contains(s, substr)` (also the model of
`strings.Contains`): length guard, then equality / empty-pattern
short-circuits, then the substring scan. -/
def goContains (s substr : String) : Bool :=
  decide (substr.data.length ≤ s.data.length) &&
    (s == substr || substr.data.length == 0 || findSubstring s substr)

/-- Go `fmt` rendering of a boolean (`%v`). -/
def goFormatBool (b : Bool) : String := if b then "true" else "false"

/-- Fraction digits of `v / 10^prec` as printed by Go's
`time.Duration.String` (`fmtFrac`): least-significant digits are dropped
while they are zero, remaining digits are emitted after a `.`; returns the
fraction text and `v / 10^prec`. -/
def fmtFracAux : Nat → Nat → Bool → List Char → (List Char × Nat)
  | v, 0, pr, acc => ((if pr then '.' :: acc else acc), v)
  | v, prec + 1, pr, acc =>
      let digit := v % 10
      let pr' := pr || decide (digit ≠ 0)
      let acc' := if pr' then Char.ofNat (48 + digit) :: acc else acc
      fmtFracAux (v / 10) prec pr' acc'

/-- Go `time.Duration.String()` (the `%v` rendering of the timing spread):
`0s`, `123ns`, `1.5µs`, `1.5ms`, `1.5s`, `1m30s`, `2h3m4.5s`, with a `-`
sign for negative durations. The duration is in nanoseconds. -/
def goDurationString (d : Int) : String :=
  let u := d.natAbs
  let core :=
    if u < 1000000000 then
      if u == 0 then "0s"
      else if u < 1000 then toString u ++ "ns"
      else if u < 1000000 then
        let fr := fmtFracAux u 3 false []
        toString fr.2 ++ String.mk fr.1 ++ "µs"
      else
        let fr := fmtFracAux u 6 false []
        toString fr.2 ++ String.mk fr.1 ++ "ms"
    else
      let fr := fmtFracAux u 9 false []
      let secs := fr.2
      let secStr := toString (secs % 60) ++ String.mk fr.1 ++ "s"
      let mins := secs / 60
      if mins == 0 then secStr
      else
        let minStr := toString (mins % 60) ++ "m" ++ secStr
        let hours := mins / 60
        if hours == 0 then minStr else toString hours ++ "h" ++ minStr
  if d < 0 && u != 0 then "-" ++ core else core

/-! ## Data model (`internal/models`)

`Endpoint`, `Session` and `Vulnerability` follow the `models` package.
The scanner's `Vulnerability` composite literals additionally set
`CWE`, `CVSSVector`, `Confidence` and `References`; those fields belong to
the `models` revision the scanner compiles against and are carried here as
declared by spec section 3 (type tag, severity, title/description,
endpoint/method, proof, CWE id, CVSS score/vector, confidence,
remediation). Go zero values are the field defaults, `time.Time` fields
are clock readings (`Nat`), `float64` CVSS scores are exact decimals. -/

/-- Target descriptor (`models.Endpoint`), read-only for the core. -/
structure Endpoint where
  URL : String := ""
  Method : String := ""
  Type' : String := ""
  Parameters : List (String × String) := []
  Headers : List (String × String) := []
  Body : String := ""
  Source : String := ""
  DiscoveredAt : Nat := 0
deriving DecidableEq

/-- Authentication context (`models.Session`), read-only for the core. -/
structure Session where
  Cookies : List (String × String) := []
  Headers : List (String × String) := []
  LocalStorage : List (String × String) := []
  SessionStorage : List (String × String) := []
  WebSocketURL : String := ""
  SessionToken : String := ""
  URLToken : String := ""
  Authenticated : Bool := false
  UserAgent : String := ""
  CreatedAt : Nat := 0
deriving DecidableEq

/-- A finding (`models.Vulnerability`). -/
structure Vulnerability where
  ID : String := ""
  Type' : String := ""
  Severity : String := ""
  Title : String := ""
  Description : String := ""
  Endpoint : String := ""
  Method : String := ""
  Proof : String := ""
  Impact : String := ""
  Remediation : String := ""
  CVSSScore : Rat := 0
  CVSS : String := ""
  CVSSVector : String := ""
  CWE : String := ""
  Confidence : String := ""
  References : List String := []
  Timestamp : Nat := 0
  Verified : Bool := false
  Request : String := ""
  Response : String := ""
  Payload : String := ""
deriving DecidableEq

/-- One fired request's outcome (`scanner.RaceResult`, enhanced race
test). `Duration` is signed nanoseconds (`time.Duration`). -/
structure RaceResult where
  ID : Nat := 0
  StatusCode : Int := 0
  Body : String := ""
  StartTime : Int := 0
  EndTime : Int := 0
  Duration : Int := 0
deriving DecidableEq

/-! ## Generic race classifier (enhanced scanner, `analyzeRaceResults`) -/

/-- Success counter of `analyzeRaceResults`: statuses in `[200,300)`. -/
def raceSuccessCount (results : List RaceResult) : Nat :=
  results.countP fun r => decide (200 ≤ r.StatusCode) && decide (r.StatusCode < 300)

/-- One pass of the classifier's timing loop: running minimum, maximum and
negative-duration flag. -/
def timingStats (init : Int) (results : List RaceResult) : Int × Int × Bool :=
  results.foldl
    (fun acc r =>
      ⟨if r.Duration < acc.1 then r.Duration else acc.1,
       if r.Duration > acc.2.1 then r.Duration else acc.2.1,
       acc.2.2 || decide (r.Duration < 0)⟩)
    ⟨init, init, false⟩

/-- Remediation text attached to the enhanced race-condition finding. -/
def raceRemediationText : String :=
  "Implement proper concurrency control:\n\n// Go example with database transaction:\ntx, _ := db.Begin()\ntx.Exec(\"SELECT balance FROM accounts WHERE id = ? FOR UPDATE\", accountID)\n// Process debit\ntx.Exec(\"UPDATE accounts SET balance = balance - ? WHERE id = ?\", amount, accountID)\ntx.Commit()\n\n// Or use distributed lock:\nlock := redisClient.SetNX(ctx, lockKey, \"1\", 5*time.Second)\nif !lock \x7b\n    return errors.New(\"operation already in progress\")\n\x7d\ndefer redisClient.Del(ctx, lockKey)"

/-- The race-condition finding built by `analyzeRaceResults`; `r0` is
`results[0]`, the seed of the timing loop. -/
def raceConditionVuln (endpoint : Endpoint) (results : List RaceResult)
    (r0 : RaceResult) (now : Nat) : Vulnerability :=
  let successCount := raceSuccessCount results
  let stats := timingStats r0.Duration results
  let hasNegativeTime := stats.2.2
  let timingSpread := stats.2.1 - stats.1
  { Type' := "Race Condition"
    Severity := "CRITICAL"
    Title := "Concurrent Request Race Condition Detected"
    Description := "Server processed " ++ toString successCount ++ " out of "
      ++ toString results.length
      ++ " concurrent identical requests successfully. This indicates lack of proper concurrency control."
    Endpoint := endpoint.URL
    Method := endpoint.Method
    Proof := toString results.length ++ " concurrent requests sent, "
      ++ toString successCount ++ " succeeded. Timing spread: "
      ++ goDurationString timingSpread ++ ". "
      ++ ("Negative time: " ++ goFormatBool hasNegativeTime)
    Timestamp := now
    CWE := "CWE-362"
    CVSSScore := 9.1
    CVSSVector := "CVSS:3.1/AV:N/AC:L/PR:N/UI:N/S:U/C:N/I:H/A:H"
    Confidence := "High"
    Remediation := raceRemediationText
    References := ["https://cwe.mitre.org/data/definitions/362.html",
      "https://owasp.org/www-community/vulnerabilities/Race_Conditions"] }

/-- Classifier of the enhanced race test (`analyzeRaceResults` in the
scanner package). `now` is the `time.Now()` reading stamped into the
finding; the `results[0]` slice access is modelled in `Option`, `none`
standing for a Go index panic. -/
def analyzeRaceResults (endpoint : Endpoint) (results : List RaceResult)
    (now : Nat) : Option (List Vulnerability) :=
  if results.length == 0 then some []
  else
    let successCount := raceSuccessCount results
    if successCount > 1 then
      match results.head? with
      | none => none
      | some r0 => some [raceConditionVuln endpoint results r0 now]
    else some []

/-! ## Enhanced dispatch round (`testRaceConditionEnhanced`) -/

/-- Outcome of one worker's `client.Do` as seen by the dispatch oracle:
status, (truncated) body and the two clock readings around the send. -/
structure NetResponse where
  status : Int := 0
  body : String := ""
  startT : Int := 0
  endT : Int := 0
deriving DecidableEq

/-- Body of one enhanced-race worker: a failed request construction or a
failed send (`net i = none`) returns without emitting a record; otherwise
exactly one `RaceResult` is emitted with `Duration = EndTime - StartTime`. -/
def raceWorker (net : Nat → Option NetResponse) (i : Nat) : Option RaceResult :=
  match net i with
  | none => none
  | some r => some { ID := i, StatusCode := r.status, Body := r.body, StartTime := r.startT, EndTime := r.endT, Duration := r.endT - r.startT }

/-- Result set collected over the round's channel: one record per worker
that completed, dropped workers contribute nothing. -/
def collectRaceResults (concurrency : Nat) (net : Nat → Option NetResponse) :
    List RaceResult :=
  (List.range concurrency).filterMap (raceWorker net)

/-- The enhanced race test (`testRaceConditionEnhanced`): dispatch a round
of `concurrency` workers, then classify the collected results. -/
def testRaceConditionEnhanced (endpoint : Endpoint) (concurrency : Nat)
    (net : Nat → Option NetResponse) (now : Nat) : Option (List Vulnerability) :=
  analyzeRaceResults endpoint (collectRaceResults concurrency net) now

/-! ## Legacy race test (`internal/scanner/race.go`) -/

/-- Lower-casing of one character as `strings.ToLower` performs it on the
ASCII range (URLs scanned by the keyword heuristic are ASCII). -/
def goToLowerChar (c : Char) : Char :=
  if 65 ≤ c.toNat ∧ c.toNat ≤ 90 then Char.ofNat (c.toNat + 32) else c

/-- Model of Go `strings.ToLower`. -/
def goToLower (s : String) : String := String.mk (s.data.map goToLowerChar)

/-- Keyword heuristic `isSingleUseEndpoint` from `race.go`. -/
def isSingleUseEndpoint (url : String) : Bool :=
  let keywords := ["claim", "redeem", "transfer", "pay", "checkout", "apply"]
  let lower := goToLower url
  keywords.any fun k => goContains lower k

/-- Legacy `TestRaceCondition` from `race.go`, instrumented with the number
of requests it dispatches (second component). A worker whose send errors
pushes status `0` into the channel (`net i = none`); the per-code
`statusCodes` histogram built by the loop is dead state and not carried.
Returns early with no dispatch for methods other than POST/PUT. -/
def TestRaceCondition (endpoint : Endpoint) (_session : Session)
    (concurrency : Nat) (net : Nat → Option Int) (now : Nat) :
    List Vulnerability × Nat :=
  if endpoint.Method ≠ "POST" ∧ endpoint.Method ≠ "PUT" then ([], 0)
  else
    let codes := (List.range concurrency).map fun i =>
      match net i with
      | some c => c
      | none => 0
    let successCount := codes.countP fun c => decide (200 ≤ c) && decide (c < 300)
    if successCount > 1 && isSingleUseEndpoint endpoint.URL then
      ([{ Type' := "Race Condition"
          Severity := "HIGH"
          Title := "Potential Race Condition Detected"
          Description := "Endpoint accepted " ++ toString successCount
            ++ " concurrent requests successfully."
          Endpoint := endpoint.URL
          Method := endpoint.Method
          Timestamp := now }], concurrency)
    else ([], concurrency)

/-! ## Idempotency tests (`internal/scanner/idempotency.go`)

Each network exchange is an oracle value `Option (Int × String)`:
`none` for a transport error (`resp == nil`), otherwise the status code
and the (4096-byte-truncated) response body. -/

/-- Remediation text of the key-collision finding. -/
def idemCollisionRemediationText : String :=
  "Implement proper idempotency key validation:\n\n// Go example:\ntype IdempotencyCache struct \x7b\n    mu sync.RWMutex\n    cache map[string]IdempotencyEntry\n\x7d\n\ntype IdempotencyEntry struct \x7b\n    RequestHash string\n    Response    []byte\n    CreatedAt   time.Time\n\x7d\n\nfunc (c *IdempotencyCache) Check(key string, requestHash string) ([]byte, bool) \x7b\n    c.mu.RLock()\n    defer c.mu.RUnlock()\n    \n    entry, exists := c.cache[key]\n    if !exists \x7b\n        return nil, false\n    \x7d\n    \n    // Reject if same key but different request\n    if entry.RequestHash != requestHash \x7b\n        return nil, false // Return error to caller\n    \x7d\n    \n    return entry.Response, true\n\x7d"

/-- The key-collision finding built by `testIdempotencyKeyCollision`. -/
def idemCollisionVuln (endpoint : Endpoint) (idempotencyKey : String) (now : Nat) :
    Vulnerability :=
  { Type' := "Idempotency Key Collision"
    Severity := "CRITICAL"
    Title := "Idempotency Key Collision - Different Requests Accepted"
    Description := "Server accepted two different requests with the same idempotency key. This allows attackers to bypass idempotency protection."
    Endpoint := endpoint.URL
    Method := endpoint.Method
    Proof := "Key: " ++ idempotencyKey
      ++ ", Request1: amount=100, Request2: amount=200, Both accepted with different responses"
    Timestamp := now
    CWE := "CWE-841"
    CVSSScore := 9.1
    CVSSVector := "CVSS:3.1/AV:N/AC:L/PR:N/UI:N/S:U/C:N/I:H/A:H"
    Confidence := "High"
    Remediation := idemCollisionRemediationText
    References := ["https://stripe.com/docs/api/idempotent_requests",
      "https://cwe.mitre.org/data/definitions/841.html"] }

/-- `testIdempotencyKeyCollision`: request A (amount 100) under a fresh
key, then request B (amount 200) under the same key. `r1`/`r2` are the two
exchanges. A finding is emitted only when A succeeded 2xx, B succeeded
2xx, the bodies differ and B's body does not mention "idempotency". -/
def testIdempotencyKeyCollision (endpoint : Endpoint) (idempotencyKey : String)
    (r1 r2 : Option (Int × String)) (now : Nat) : List Vulnerability :=
  match r1 with
  | none => []
  | some (status1, body1) =>
    if status1 < 200 || status1 ≥ 300 then []
    else
      match r2 with
      | none => []
      | some (status2, body2) =>
        if 200 ≤ status2 && status2 < 300 then
          if body1 != body2 && !goContains body2 "idempotency" then
            [idemCollisionVuln endpoint idempotencyKey now]
          else []
        else []

/-- Remediation text of the concurrent idempotency-race finding. -/
def idemRaceRemediationText : String :=
  "Use atomic operations or database constraints for idempotency validation:\n\n// Go example with database:\ntx, _ := db.Begin()\n_, err := tx.Exec(\n    \"INSERT INTO idempotency_keys (key, request_hash, response, created_at) VALUES (?, ?, ?, ?)\",\n    key, requestHash, response, time.Now(),\n)\nif err != nil \x7b\n    // Key already exists (duplicate request)\n    tx.Rollback()\n    return cachedResponse\n\x7d\ntx.Commit()"

/-- Worker count hard-wired by `testIdempotencyRaceCondition`. -/
def idemRaceConcurrency : Nat := 5

/-- Success count over the idempotency race round: each worker pushes its
response (or `nil` on transport error) into the channel, and a response
counts when it is non-nil with status in `[200,300)`. -/
def idemRaceSuccessCount (net : Nat → Option Int) : Nat :=
  ((List.range idemRaceConcurrency).map net).countP fun r =>
    match r with
    | some status => decide (200 ≤ status) && decide (status < 300)
    | none => false

/-- The concurrent-idempotency finding built by
`testIdempotencyRaceCondition`. -/
def idemRaceVuln (endpoint : Endpoint) (sharedKey : String)
    (successCount : Nat) (now : Nat) : Vulnerability :=
  { Type' := "Idempotency Race Condition"
    Severity := "CRITICAL"
    Title := "Race Condition in Idempotency Key Validation"
    Description := "Server processed " ++ toString successCount ++ " out of "
      ++ toString idemRaceConcurrency
      ++ " concurrent requests with the same idempotency key. This indicates a race condition in the idempotency validation logic."
    Endpoint := endpoint.URL
    Method := endpoint.Method
    Proof := "Sent " ++ toString idemRaceConcurrency
      ++ " concurrent requests with key \x27" ++ sharedKey ++ "\x27, "
      ++ toString successCount ++ " succeeded"
    Timestamp := now
    CWE := "CWE-362"
    CVSSScore := 9.1
    CVSSVector := "CVSS:3.1/AV:N/AC:L/PR:N/UI:N/S:U/C:N/I:H/A:H"
    Confidence := "High"
    Remediation := idemRaceRemediationText
    References := ["https://cwe.mitre.org/data/definitions/362.html",
      "https://stripe.com/docs/api/idempotent_requests#how-it-works"] }

/-- `testIdempotencyRaceCondition`: five workers share one idempotency key
behind a barrier; instrumented with the number of workers fired (second
component). A finding is emitted only when more than one worker got 2xx. -/
def testIdempotencyRaceCondition (endpoint : Endpoint) (sharedKey : String)
    (net : Nat → Option Int) (now : Nat) : List Vulnerability × Nat :=
  let concurrency := idemRaceConcurrency
  let successCount := idemRaceSuccessCount net
  if successCount > 1 then
    ([idemRaceVuln endpoint sharedKey successCount now], concurrency)
  else ([], concurrency)

/-! ## WebSocket replay test (`internal/scanner/ws_race.go`)

The interceptor (`browser.WSInterceptor`) holds an append-only message
history; the embedding takes the history as a value, quiescent for the
duration of the test. `page.Evaluate`-based sending is the oracle
`sendOk : String → Bool`. -/

/-- A JSON value as far as the scanner's type assertions look at it. -/
inductive WSVal where
  | str (s : String)
  | bool (b : Bool)
  | other
deriving DecidableEq

/-- One captured WebSocket frame (`browser.WSMessage`). `Parsed` is the
JSON object form when unmarshalling succeeded (`nil` otherwise). -/
structure WSMessage where
  Direction : String := ""
  Timestamp : Nat := 0
  Type' : String := ""
  Data : String := ""
  Parsed : Option (List (String × WSVal)) := none
deriving DecidableEq

/-- Keyword heuristic `isPaymentMessage` (`browser` package): raw-text
keywords when the frame is not JSON, key-name keywords otherwise. -/
def isPaymentMessage (msg : WSMessage) : Bool :=
  match msg.Parsed with
  | none =>
    ["payment", "pay", "transaction", "amount", "status", "confirm", "balance"].any
      fun kw => goContains msg.Data kw
  | some kvs =>
    kvs.any fun kv =>
      ["payment", "transaction", "amount", "status", "balance"].any
        fun kw => goContains kv.1 kw

/-- `WSInterceptor.GetPaymentMessages`: filter of the full history. -/
def GetPaymentMessages (messages : List WSMessage) : List WSMessage :=
  messages.filter isPaymentMessage

/-- `isSuccessResponse` (`ws_race.go`): a parsed `status` string among the
success words, or a parsed boolean `success`, or a raw-text keyword. -/
def isSuccessResponse (msg : WSMessage) : Bool :=
  (match msg.Parsed with
   | some kvs =>
     (match kvs.lookup "status" with
      | some (WSVal.str s) =>
        ["success", "ok", "completed", "paid", "confirmed"].any fun w => s == w
      | _ => false) ||
     (match kvs.lookup "success" with
      | some (WSVal.bool b) => b
      | _ => false)
   | none => false) ||
  ["success", "completed", "confirmed"].any fun kw => goContains msg.Data kw

/-- The replay finding built by `TestWebSocketReplay`. -/
def wsReplayVuln (original : String) (now : Nat) : Vulnerability :=
  { Type' := "WebSocket Replay Attack"
    Severity := "HIGH"
    Title := "WebSocket Message Replay Vulnerability"
    Description := "Server accepted replayed WebSocket message"
    Proof := "Original: " ++ original
    Timestamp := now }

/-- One iteration of the replay loop over a candidate message: replay it
when it was a sent frame, then fetch the history and inspect its last
message — that unguarded `newMsgs[len(newMsgs)-1]` access is modelled in
`Option`, `none` standing for a Go index panic on an empty history. -/
def wsReplayStep (messages : List WSMessage) (sendOk : String → Bool) (now : Nat)
    (acc : Option (List Vulnerability)) (msg : WSMessage) :
    Option (List Vulnerability) :=
  match acc with
  | none => none
  | some vulns =>
    if msg.Direction == "sent" then
      if sendOk msg.Data then
        match messages.getLast? with
        | none => none
        | some lastMsg =>
          if lastMsg.Direction == "received" && isSuccessResponse lastMsg then
            some (vulns ++ [wsReplayVuln msg.Data now])
          else some vulns
      else some vulns
    else some vulns

/-- `TestWebSocketReplay`: replay every previously sent payment message of
the captured history. -/
def TestWebSocketReplay (messages : List WSMessage) (sendOk : String → Bool)
    (now : Nat) : Option (List Vulnerability) :=
  (GetPaymentMessages messages).foldl (wsReplayStep messages sendOk now) (some [])

/-! ## HTTP clients (`internal/utils/http.go` and the enhanced race test) -/

/-- The `http.Client` configuration fields the core touches. A `nil`
`CheckRedirect` (Go's default) follows redirects; the core's factory
installs the `ErrUseLastResponse` policy instead. Durations in
nanoseconds; Go zero values as defaults. -/
structure GoHTTPClient where
  timeoutNs : Nat := 0
  maxIdleConns : Nat := 0
  maxIdleConnsPerHost : Nat := 0
  idleConnTimeoutNs : Nat := 0
  tlsHandshakeTimeoutNs : Nat := 0
  insecureSkipVerify : Bool := false
  forceAttemptHTTP2 : Bool := false
  checkRedirectUseLastResponse : Bool := false
deriving DecidableEq

/-- `utils.NewHTTPClient`: pooling transport, self-signed TLS allowed, and
a `CheckRedirect` returning `http.ErrUseLastResponse` (no redirect
following). -/
def NewHTTPClient (timeoutNs : Nat) : GoHTTPClient :=
  { timeoutNs := timeoutNs
    maxIdleConns := 100
    maxIdleConnsPerHost := 100
    idleConnTimeoutNs := 90 * 1000000000
    tlsHandshakeTimeoutNs := 10 * 1000000000
    insecureSkipVerify := true
    checkRedirectUseLastResponse := true }

/-- The `http.Client` literal built inline by `testRaceConditionEnhanced`:
30s timeout, pooling sized to the concurrency, HTTP/2 forced — and no
`CheckRedirect` field, so Go's default redirect following applies. -/
def enhancedRaceClient (concurrency : Nat) : GoHTTPClient :=
  { timeoutNs := 30 * 1000000000
    maxIdleConns := concurrency
    maxIdleConnsPerHost := concurrency
    idleConnTimeoutNs := 90 * 1000000000
    forceAttemptHTTP2 := true }

/-- Modelled from Go `net/http` redirect semantics: given the chain of
response statuses a request would produce, a client whose `CheckRedirect`
returns `ErrUseLastResponse` observes the first response; a client with a
`nil` policy keeps following 3xx responses (Go stops after 10 hops). -/
def resolveRedirects : Nat → List Nat → Option Nat
  | _, [] => none
  | 0, s :: _ => some s
  | hops + 1, s :: rest =>
    if 300 ≤ s ∧ s < 400 ∧ rest ≠ [] then resolveRedirects hops rest else some s

/-- Status code `client.Do` reports for a redirect chain under the
client's redirect policy. -/
def clientObservedStatus (c : GoHTTPClient) (chain : List Nat) : Option Nat :=
  if c.checkRedirectUseLastResponse then chain.head? else resolveRedirects 10 chain

/-! ## Dispatch worker statement order (barrier discipline)

Each barrier-synchronized worker body is abstracted to the order of its
three relevant actions: building the request object, blocking on the
shared release signal, and performing the network send. The traces below
transcribe the statement order of the three worker closures. -/

/-- The actions of a dispatch worker the barrier contract talks about. -/
inductive WorkerStep where
  | buildRequest
  | awaitBarrier
  | sendRequest
deriving DecidableEq

/-- Worker of legacy `TestRaceCondition` (`race.go`): first
`<-startSignal`, then `http.NewRequest` + header/cookie attachment, then
`client.Do`. -/
def raceGoWorkerTrace : List WorkerStep :=
  [WorkerStep.awaitBarrier, WorkerStep.buildRequest, WorkerStep.sendRequest]

/-- Worker of `testRaceConditionEnhanced`: `http.NewRequest` + headers,
then `<-barrier`, then `client.Do`. -/
def enhancedWorkerTrace : List WorkerStep :=
  [WorkerStep.buildRequest, WorkerStep.awaitBarrier, WorkerStep.sendRequest]

/-- Worker of `testIdempotencyRaceCondition`: `<-barrier`, then
`sendPaymentRequest` (which builds the request and sends it). -/
def idemRaceWorkerTrace : List WorkerStep :=
  [WorkerStep.awaitBarrier, WorkerStep.buildRequest, WorkerStep.sendRequest]

/-- A worker constructs its request before blocking when `buildRequest`
appears in the trace before the first `awaitBarrier`. -/
def constructsBeforeBarrier (trace : List WorkerStep) : Bool :=
  decide (WorkerStep.buildRequest ∈
    trace.takeWhile fun s => s ≠ WorkerStep.awaitBarrier)

/-! ## Substring facts about the Go helpers -/

/-- A pattern sitting between two context strings is found by the Go
substring helper. -/
theorem goContains_middle (a m b : String) : goContains (a ++ m ++ b) m = true := by
  have hdata : (a ++ m ++ b).data = a.data ++ (m.data ++ b.data) := by
    simp [String.data_append]
  have hfind : findSubstring (a ++ m ++ b) m = true := by
    unfold findSubstring
    rw [List.any_eq_true]
    refine ⟨a.data.length, ?_, ?_⟩
    · rw [List.mem_range, hdata]
      simp [List.length_append]
      omega
    · rw [hdata, decide_eq_true_iff, List.drop_left, List.take_left]
  unfold goContains
  rw [hfind]
  simp
  omega

/-- Rewriting form of `goContains_middle`. -/
theorem goContains_of_eq {s : String} (a m b : String) (h : s = a ++ m ++ b) :
    goContains s m = true := h ▸ goContains_middle a m b

/-- A pattern at the head of a string is found by the Go substring
helper. -/
theorem goContains_head (m b : String) : goContains (m ++ b) m = true := by
  have h := goContains_middle "" m b
  simpa using h

/-- Rewriting form of `goContains_head`. -/
theorem goContains_of_eq_head {s : String} (m b : String) (h : s = m ++ b) :
    goContains s m = true := h ▸ goContains_head m b

/-- The classifier's success count never exceeds the result-set size. -/
theorem raceSuccessCount_le_length (results : List RaceResult) :
    raceSuccessCount results ≤ results.length :=
  List.countP_le_length _

/-! ## Shared helper lemmas -/

/-- The classifier never panics: its `results[0]` access is guarded by the
empty-set early return and only reached with at least two successes. -/
theorem analyzeRaceResults_isSome (endpoint : Endpoint)
    (results : List RaceResult) (now : Nat) :
    ∃ vulns, analyzeRaceResults endpoint results now = some vulns := by
  unfold analyzeRaceResults
  rcases results with _ | ⟨r0, rest⟩
  · exact ⟨[], rfl⟩
  · by_cases h1 : raceSuccessCount (r0 :: rest) > 1
    · exact ⟨[raceConditionVuln endpoint (r0 :: rest) r0 now], by simp [h1]⟩
    · exact ⟨[], by simp [h1]⟩

/-- The negative-time flag accumulated by the timing loop is the
disjunction of the per-result negative-duration checks. -/
theorem timingStats_neg (init : Int) (results : List RaceResult) :
    (timingStats init results).2.2 = results.any fun r => decide (r.Duration < 0) := by
  suffices h : ∀ (l : List RaceResult) (x y : Int) (c : Bool),
      (l.foldl
        (fun acc r =>
          (⟨if r.Duration < acc.1 then r.Duration else acc.1,
            if r.Duration > acc.2.1 then r.Duration else acc.2.1,
            acc.2.2 || decide (r.Duration < 0)⟩ : Int × Int × Bool))
        ⟨x, y, c⟩).2.2 = (c || l.any fun r => decide (r.Duration < 0)) by
    simpa only [timingStats, Bool.false_or] using h results init init false
  intro l
  induction l with
  | nil => intro x y c; simp
  | cons r l ih =>
    intro x y c
    rw [List.foldl_cons]
    rw [ih]
    simp [Bool.or_assoc]

/-! ## Claim C5 -/

/-- C5: for every result set in which at most one request has a status
code in `[200,300)` — including every round with fewer than 2 results —
the generic race classifier returns zero findings. -/
theorem C5_at_most_one_success_no_finding (endpoint : Endpoint)
    (results : List RaceResult) (now : Nat)
    (h : raceSuccessCount results ≤ 1) :
    analyzeRaceResults endpoint results now = some [] := by
  unfold analyzeRaceResults
  have h2 : ¬ raceSuccessCount results > 1 := by omega
  simp [h2]

/-- Sample endpoint for the serialized round below. -/
def epC5 : Endpoint :=
  { URL := "https://shop.example/api/checkout", Method := "POST" }

/-- A round where proper locking serialized the race: one 2xx winner. -/
def rsC5 : List RaceResult :=
  [{ ID := 0, StatusCode := 200, Body := "ok", StartTime := 0, EndTime := 5, Duration := 5 },
   { ID := 1, StatusCode := 409, Body := "conflict", StartTime := 0, EndTime := 6, Duration := 6 }]

/-- C5 witness: the serialized round yields no finding. -/
theorem C5_at_most_one_success_no_finding_witness :
    analyzeRaceResults epC5 rsC5 0 = some [] :=
  C5_at_most_one_success_no_finding epC5 rsC5 0 (by decide)

/-! ## Claim C1 -/

/-- C1: for every result set with at least two 2xx successes against an
endpoint whose URL matches a single-use keyword, the race classifier
returns exactly one "Race Condition" finding of severity CRITICAL or
HIGH whose proof string contains the success count and the total number
of requests. -/
theorem C1_single_use_multi_success_one_finding (endpoint : Endpoint)
    (results : List RaceResult) (now : Nat)
    (hsucc : 2 ≤ raceSuccessCount results)
    (_hkw : isSingleUseEndpoint endpoint.URL = true) :
    ∃ v, analyzeRaceResults endpoint results now = some [v] ∧
      v.Type' = "Race Condition" ∧
      (v.Severity = "CRITICAL" ∨ v.Severity = "HIGH") ∧
      goContains v.Proof (toString (raceSuccessCount results)) = true ∧
      goContains v.Proof (toString results.length) = true := by
  obtain ⟨r0, rest, rfl⟩ : ∃ r0 rest, results = r0 :: rest := by
    cases results with
    | nil => simp [raceSuccessCount] at hsucc
    | cons a l => exact ⟨a, l, rfl⟩
  refine ⟨raceConditionVuln endpoint (r0 :: rest) r0 now, ?_, rfl, Or.inl rfl, ?_, ?_⟩
  · unfold analyzeRaceResults
    have h2 : raceSuccessCount (r0 :: rest) > 1 := by omega
    simp [h2]
  · refine goContains_of_eq
      (toString (r0 :: rest).length ++ " concurrent requests sent, ")
      (toString (raceSuccessCount (r0 :: rest)))
      (" succeeded. Timing spread: "
        ++ goDurationString
          ((timingStats r0.Duration (r0 :: rest)).2.1
            - (timingStats r0.Duration (r0 :: rest)).1)
        ++ ". "
        ++ ("Negative time: "
            ++ goFormatBool (timingStats r0.Duration (r0 :: rest)).2.2)) ?_
    simp [raceConditionVuln, String.append_assoc]
  · refine goContains_of_eq_head
      (toString (r0 :: rest).length)
      (" concurrent requests sent, "
        ++ toString (raceSuccessCount (r0 :: rest))
        ++ " succeeded. Timing spread: "
        ++ goDurationString
          ((timingStats r0.Duration (r0 :: rest)).2.1
            - (timingStats r0.Duration (r0 :: rest)).1)
        ++ ". "
        ++ ("Negative time: "
            ++ goFormatBool (timingStats r0.Duration (r0 :: rest)).2.2)) ?_
    simp [raceConditionVuln, String.append_assoc]

/-- Sample single-use endpoint (URL contains "redeem" and "pay"). -/
def epC1 : Endpoint :=
  { URL := "https://shop.example/api/coupons/redeem", Method := "POST" }

/-- A round in which two of three concurrent requests were accepted. -/
def rsC1 : List RaceResult :=
  [{ ID := 0, StatusCode := 200, Body := "ok", StartTime := 0, EndTime := 5, Duration := 5 },
   { ID := 1, StatusCode := 201, Body := "ok", StartTime := 0, EndTime := 7, Duration := 7 },
   { ID := 2, StatusCode := 429, Body := "limited", StartTime := 0, EndTime := 9, Duration := 9 }]

/-- C1 witness: a double-redeem round produces the single CRITICAL
finding with both counts in the proof string. -/
theorem C1_single_use_multi_success_one_finding_witness :
    ∃ v, analyzeRaceResults epC1 rsC1 0 = some [v] ∧
      v.Type' = "Race Condition" ∧
      (v.Severity = "CRITICAL" ∨ v.Severity = "HIGH") ∧
      goContains v.Proof (toString (raceSuccessCount rsC1)) = true ∧
      goContains v.Proof (toString rsC1.length) = true :=
  C1_single_use_multi_success_one_finding epC1 rsC1 0 (by decide) (by decide)

/-! ## Claim C2

The classifier reads the wall clock (`Timestamp: time.Now()`) while
building a finding, so two invocations on the identical result slice give
byte-identical output only when no finding is emitted: an emitted finding
carries the invocation time. The counterexample below exhibits two
invocations differing in the `Timestamp` field; modulo that field the
classifier is a pure function of the result set. -/

/-- Sample endpoint for the purity counterexample. -/
def epC2 : Endpoint := { URL := "https://shop.example/api/pay", Method := "POST" }

/-- A round with two 2xx winners, so a finding is emitted. -/
def rsC2 : List RaceResult :=
  [{ ID := 0, StatusCode := 200, Body := "a", StartTime := 0, EndTime := 4, Duration := 4 },
   { ID := 1, StatusCode := 200, Body := "b", StartTime := 0, EndTime := 6, Duration := 6 }]

/-- C2 counterexample: two invocations of the classifier on the identical
result slice, one clock tick apart, give different `Vulnerability`
output — the emitted finding carries the invocation's clock reading. -/
theorem C2_counterexample_two_invocations_differ :
    analyzeRaceResults epC2 rsC2 0 ≠ analyzeRaceResults epC2 rsC2 1 := by
  intro h
  have h2 := congrArg (Option.map (List.map Vulnerability.Timestamp)) h
  have e1 : (analyzeRaceResults epC2 rsC2 0).map (List.map Vulnerability.Timestamp)
      = some [0] := by decide
  have e2 : (analyzeRaceResults epC2 rsC2 1).map (List.map Vulnerability.Timestamp)
      = some [1] := by decide
  rw [e1, e2] at h2
  simp at h2

/-- A finding with its clock stamp scrubbed. -/
def eraseTimestamp (v : Vulnerability) : Vulnerability := { v with Timestamp := 0 }

/-- C2 amended: invoking the classifier twice on the identical
`RaceResult` slice produces `Vulnerability` output identical in every
field except `Timestamp`, which records each invocation's wall-clock
reading; modulo that field the classifier is a pure, stateless function
of its input result set. -/
theorem C2_pure_up_to_timestamp (endpoint : Endpoint)
    (results : List RaceResult) (t1 t2 : Nat) :
    (analyzeRaceResults endpoint results t1).map (List.map eraseTimestamp)
      = (analyzeRaceResults endpoint results t2).map (List.map eraseTimestamp) := by
  unfold analyzeRaceResults
  by_cases h0 : (results.length == 0) = true
  · simp [h0]
  · by_cases h1 : raceSuccessCount results > 1
    · cases hh : results.head? <;>
        simp [h0, h1, hh, eraseTimestamp, raceConditionVuln]
    · simp [h0, h1]

/-! ## Claim C3 -/

/-- C3: the result set collected for a dispatch round has exactly one
record per worker whose dispatch succeeded — failed workers contribute
nothing, with no null padding — and the classifier accepts any result
count below the requested concurrency without failing. -/
theorem C3_collected_matches_dispatched (concurrency : Nat)
    (net : Nat → Option NetResponse) :
    (collectRaceResults concurrency net).length
        = ((List.range concurrency).filter fun i => (net i).isSome).length ∧
    ∀ (endpoint : Endpoint) (results : List RaceResult) (now : Nat),
      results.length < concurrency →
      ∃ vulns, analyzeRaceResults endpoint results now = some vulns := by
  constructor
  · unfold collectRaceResults
    suffices h : ∀ l : List Nat,
        (l.filterMap (raceWorker net)).length
          = (l.filter fun i => (net i).isSome).length from h _
    intro l
    induction l with
    | nil => rfl
    | cons a l ih =>
      cases h : net a <;>
        simp [List.filterMap_cons, List.filter_cons, raceWorker, h, ih]
  · intro endpoint results now _
    exact analyzeRaceResults_isSome endpoint results now

/-- Network oracle of a round where worker 2 of 5 drops (construction or
send failure) and the others complete. -/
def netC3 : Nat → Option NetResponse := fun i =>
  if i == 2 then none
  else some { status := 200, body := "ok", startT := 0, endT := Int.ofNat i + 1 }

/-- C3 witness: the partially failed round collects 4 of 5 records, and
the classifier accepts a 1-element result set from a 5-worker round. -/
theorem C3_collected_matches_dispatched_witness :
    (collectRaceResults 5 netC3).length
        = ((List.range 5).filter fun i => (netC3 i).isSome).length ∧
    ∃ vulns, analyzeRaceResults epC5
      [{ ID := 0, StatusCode := 200, Body := "ok", StartTime := 0, EndTime := 5, Duration := 5 }]
      0 = some vulns :=
  ⟨(C3_collected_matches_dispatched 5 netC3).1,
   (C3_collected_matches_dispatched 5 netC3).2 epC5
     [{ ID := 0, StatusCode := 200, Body := "ok", StartTime := 0, EndTime := 5, Duration := 5 }]
     0 (by decide)⟩

/-! ## Claim C4 -/

/-- A pattern at the tail of a string is found by the Go substring
helper. -/
theorem goContains_last (a m : String) : goContains (a ++ m) m = true := by
  have h := goContains_middle a m ""
  simpa using h

/-- When the history is non-empty, one replay-loop step on a live
accumulator yields a live accumulator (no panic). -/
theorem wsReplayStep_isSome (messages : List WSMessage) (sendOk : String → Bool)
    (now : Nat) (lastMsg : WSMessage) (hl : messages.getLast? = some lastMsg)
    (acc : List Vulnerability) (msg : WSMessage) :
    ∃ acc', wsReplayStep messages sendOk now (some acc) msg = some acc' := by
  unfold wsReplayStep
  rw [hl]
  by_cases h1 : (msg.Direction == "sent") = true
  · by_cases h2 : sendOk msg.Data = true
    · by_cases h3 : (lastMsg.Direction == "received" && isSuccessResponse lastMsg) = true
      · exact ⟨acc ++ [wsReplayVuln msg.Data now], by simp [h1, h2, h3]⟩
      · exact ⟨acc, by simp [h1, h2, h3]⟩
    · exact ⟨acc, by simp [h1, h2]⟩
  · exact ⟨acc, by simp [h1]⟩

/-- The replay test never panics: the last-message access only runs when a
sent payment message exists, which forces a non-empty history. -/
theorem TestWebSocketReplay_isSome (messages : List WSMessage)
    (sendOk : String → Bool) (now : Nat) :
    TestWebSocketReplay messages sendOk now ≠ none := by
  unfold TestWebSocketReplay
  rcases hm : messages.getLast? with _ | lastMsg
  · have hnil : messages = [] := by
      cases messages with
      | nil => rfl
      | cons x xs => simp at hm
    subst hnil
    simp [GetPaymentMessages]
  · suffices h : ∀ (pl : List WSMessage) (acc : List Vulnerability),
        pl.foldl (wsReplayStep messages sendOk now) (some acc) ≠ none by
      exact h _ []
    intro pl
    induction pl with
    | nil => intro acc; simp
    | cons m pl ih =>
      intro acc
      rw [List.foldl_cons]
      obtain ⟨acc', hacc⟩ := wsReplayStep_isSome messages sendOk now lastMsg hm acc m
      rw [hacc]
      exact ih acc'

/-- C4: the core analysis functions degrade instead of raising — the race
classifier returns a result set verdict on every input (never panics);
when some collected result carries a negative duration, any finding the
classifier emits for that round carries the explicit anomaly marker
"Negative time: true" in its proof text; and the WebSocket replay test
never panics, whatever the captured message history (including an empty
one) or send outcomes. -/
theorem C4_degrade_not_crash :
    (∀ (endpoint : Endpoint) (results : List RaceResult) (now : Nat),
      ∃ vulns, analyzeRaceResults endpoint results now = some vulns) ∧
    (∀ (endpoint : Endpoint) (results : List RaceResult) (now : Nat)
      (vulns : List Vulnerability) (v : Vulnerability),
      (results.any fun r => decide (r.Duration < 0)) = true →
      analyzeRaceResults endpoint results now = some vulns →
      v ∈ vulns →
      goContains v.Proof "Negative time: true" = true) ∧
    (∀ (messages : List WSMessage) (sendOk : String → Bool) (now : Nat),
      TestWebSocketReplay messages sendOk now ≠ none) := by
  refine ⟨analyzeRaceResults_isSome, ?_, TestWebSocketReplay_isSome⟩
  intro endpoint results now vulns v hneg heq hmem
  rcases results with _ | ⟨r0, rest⟩
  · simp at hneg
  · unfold analyzeRaceResults at heq
    by_cases h1 : raceSuccessCount (r0 :: rest) > 1
    · simp [h1] at heq
      subst heq
      rw [List.mem_singleton] at hmem
      subst hmem
      have hflag : (timingStats r0.Duration (r0 :: rest)).2.2 = true := by
        rw [timingStats_neg]
        exact hneg
      have hmarker : ("Negative time: "
          ++ goFormatBool (timingStats r0.Duration (r0 :: rest)).2.2)
          = "Negative time: true" := by
        rw [hflag]
        decide
      have hP : (raceConditionVuln endpoint (r0 :: rest) r0 now).Proof
          = (toString (r0 :: rest).length ++ " concurrent requests sent, "
             ++ toString (raceSuccessCount (r0 :: rest)) ++ " succeeded. Timing spread: "
             ++ goDurationString
               ((timingStats r0.Duration (r0 :: rest)).2.1
                 - (timingStats r0.Duration (r0 :: rest)).1)
             ++ ". ") ++ "Negative time: true" := by
        simp [raceConditionVuln, hmarker]
      rw [hP]
      exact goContains_last _ _
    · simp [h1] at heq
      subst heq
      simp at hmem

/-- Sample endpoint for the negative-duration round. -/
def epC4 : Endpoint := { URL := "https://shop.example/api/transfer", Method := "POST" }

/-- A synthetic result whose clock readings ran backwards. -/
def rsC4h : RaceResult :=
  { ID := 0, StatusCode := 200, Body := "ok", StartTime := 5, EndTime := 2, Duration := -3 }

/-- A round containing the negative-duration result and a second winner. -/
def rsC4 : List RaceResult :=
  [rsC4h,
   { ID := 1, StatusCode := 200, Body := "ok", StartTime := 0, EndTime := 6, Duration := 6 }]

/-- C4 witness: the finding emitted for the clock-skewed round carries the
anomaly marker in its proof text. -/
theorem C4_degrade_not_crash_witness :
    goContains (raceConditionVuln epC4 rsC4 rsC4h 0).Proof "Negative time: true" = true :=
  C4_degrade_not_crash.2.1 epC4 rsC4 0
    [raceConditionVuln epC4 rsC4 rsC4h 0] (raceConditionVuln epC4 rsC4 rsC4h 0)
    (by decide) rfl (by simp)

/-! ## Claim C6 -/

/-- C6: assuming the first keyed request (amount 100) was accepted 2xx
with body B1, the collision test emits exactly one CRITICAL "Idempotency
Key Collision" finding precisely when the second request (same key,
amount 200) is accepted 2xx with a body that differs from B1 and does not
mention "idempotency"; in every other case — including a transport error
on the second request — it returns no finding. -/
theorem C6_key_collision_iff (endpoint : Endpoint) (idempotencyKey : String)
    (status1 : Int) (body1 : String) (r2 : Option (Int × String)) (now : Nat)
    (h1 : 200 ≤ status1) (h2 : status1 < 300) :
    ((∃ v, testIdempotencyKeyCollision endpoint idempotencyKey
          (some (status1, body1)) r2 now = [v]
        ∧ v.Type' = "Idempotency Key Collision" ∧ v.Severity = "CRITICAL")
      ↔ ∃ status2 body2, r2 = some (status2, body2) ∧ 200 ≤ status2 ∧ status2 < 300
          ∧ body2 ≠ body1 ∧ goContains body2 "idempotency" = false)
    ∧ (∀ status2 body2, r2 = some (status2, body2) →
        ¬ (200 ≤ status2 ∧ status2 < 300 ∧ body2 ≠ body1
            ∧ goContains body2 "idempotency" = false) →
        testIdempotencyKeyCollision endpoint idempotencyKey
          (some (status1, body1)) r2 now = [])
    ∧ (r2 = none →
        testIdempotencyKeyCollision endpoint idempotencyKey
          (some (status1, body1)) r2 now = []) := by
  have hn1 : ¬ (status1 < 200) := by omega
  have hn2 : ¬ (status1 ≥ 300) := by omega
  rcases r2 with _ | ⟨s2, b2⟩
  · refine ⟨⟨?_, ?_⟩, ?_, fun _ => by simp [testIdempotencyKeyCollision, hn1, hn2]⟩
    · rintro ⟨v, hv, -, -⟩
      simp [testIdempotencyKeyCollision, hn1, hn2] at hv
    · rintro ⟨s2, b2, hcontra, -⟩
      simp at hcontra
    · intro s2 b2 hcontra
      simp at hcontra
  · have hout : testIdempotencyKeyCollision endpoint idempotencyKey
        (some (status1, body1)) (some (s2, b2)) now
        = if 200 ≤ s2 && s2 < 300 then
            (if body1 != b2 && !goContains b2 "idempotency" then
              [idemCollisionVuln endpoint idempotencyKey now]
            else [])
          else [] := by
      simp [testIdempotencyKeyCollision, hn1, hn2]
    by_cases hc1 : (200 ≤ s2 && s2 < 300) = true
    · by_cases hc2 : (body1 != b2 && !goContains b2 "idempotency") = true
      · have hvuln : testIdempotencyKeyCollision endpoint idempotencyKey
            (some (status1, body1)) (some (s2, b2)) now
            = [idemCollisionVuln endpoint idempotencyKey now] := by
          rw [hout, if_pos hc1, if_pos hc2]
        simp only [Bool.and_eq_true, decide_eq_true_eq] at hc1
        simp only [Bool.and_eq_true, bne_iff_ne, ne_eq,
          Bool.not_eq_true', Bool.not_eq_true] at hc2
        refine ⟨?_, ?_, fun hcontra => by simp at hcontra⟩
        · apply iff_of_true
          · exact ⟨idemCollisionVuln endpoint idempotencyKey now, hvuln, rfl, rfl⟩
          · exact ⟨s2, b2, rfl, hc1.1, hc1.2, Ne.symm hc2.1, hc2.2⟩
        · intro s2' b2' hinj hncond
          simp only [Option.some.injEq, Prod.mk.injEq] at hinj
          obtain ⟨hq1, hq2⟩ := hinj
          subst hq1
          subst hq2
          exact absurd ⟨hc1.1, hc1.2, Ne.symm hc2.1, hc2.2⟩ hncond
      · have hempty : testIdempotencyKeyCollision endpoint idempotencyKey
            (some (status1, body1)) (some (s2, b2)) now = [] := by
          rw [hout, if_pos hc1, if_neg hc2]
        simp only [Bool.and_eq_true, bne_iff_ne, ne_eq, Bool.not_eq_true',
          not_and, Decidable.not_not] at hc2
        refine ⟨iff_of_false ?_ ?_, fun _ _ _ _ => hempty,
          fun hcontra => by simp at hcontra⟩
        · rintro ⟨v, hv, -, -⟩
          rw [hempty] at hv
          simp at hv
        · rintro ⟨s2', b2', hinj, -, -, hne', hg'⟩
          simp only [Option.some.injEq, Prod.mk.injEq] at hinj
          obtain ⟨hq1, hq2⟩ := hinj
          subst hq1
          subst hq2
          exact absurd (hc2 (fun he => hne' he.symm)) (by simp [hg'])
    · have hempty : testIdempotencyKeyCollision endpoint idempotencyKey
          (some (status1, body1)) (some (s2, b2)) now = [] := by
        rw [hout, if_neg hc1]
      simp only [Bool.and_eq_true, decide_eq_true_eq, not_and] at hc1
      refine ⟨iff_of_false ?_ ?_, fun _ _ _ _ => hempty,
        fun hcontra => by simp at hcontra⟩
      · rintro ⟨v, hv, -, -⟩
        rw [hempty] at hv
        simp at hv
      · rintro ⟨s2', b2', hinj, hA', hB', -, -⟩
        simp only [Option.some.injEq, Prod.mk.injEq] at hinj
        obtain ⟨hq1, hq2⟩ := hinj
        subst hq1
        subst hq2
        omega

/-- Sample endpoint for the key-collision exchange. -/
def epC6 : Endpoint := { URL := "https://shop.example/api/payments", Method := "POST" }

/-- C6 witness: with request A accepted as 201/"charge-1" and request B
accepted as 201/"charge-2", the characterization applies. -/
theorem C6_key_collision_iff_witness :
    ((∃ v, testIdempotencyKeyCollision epC6 "idem_1_key"
          (some (201, "charge-1")) (some (201, "charge-2")) 0 = [v]
        ∧ v.Type' = "Idempotency Key Collision" ∧ v.Severity = "CRITICAL")
      ↔ ∃ status2 body2, (some ((201 : Int), "charge-2") : Option (Int × String))
            = some (status2, body2) ∧ 200 ≤ status2 ∧ status2 < 300
          ∧ body2 ≠ "charge-1" ∧ goContains body2 "idempotency" = false)
    ∧ (∀ status2 body2, (some ((201 : Int), "charge-2") : Option (Int × String))
          = some (status2, body2) →
        ¬ (200 ≤ status2 ∧ status2 < 300 ∧ body2 ≠ "charge-1"
            ∧ goContains body2 "idempotency" = false) →
        testIdempotencyKeyCollision epC6 "idem_1_key"
          (some (201, "charge-1")) (some (201, "charge-2")) 0 = [])
    ∧ ((some ((201 : Int), "charge-2") : Option (Int × String)) = none →
        testIdempotencyKeyCollision epC6 "idem_1_key"
          (some (201, "charge-1")) (some (201, "charge-2")) 0 = []) :=
  C6_key_collision_iff epC6 "idem_1_key" 201 "charge-1" (some (201, "charge-2")) 0
    (by decide) (by decide)

/-! ## Claim C7 -/

/-- C7: the concurrent idempotency race test fires exactly 5 workers
sharing one key; with at most one 2xx it returns no finding, and with two
or more it returns exactly one CRITICAL finding whose proof string
mentions the total of 5 requests and the actual success count. -/
theorem C7_concurrent_idempotency_race (endpoint : Endpoint) (sharedKey : String)
    (net : Nat → Option Int) (now : Nat) :
    (testIdempotencyRaceCondition endpoint sharedKey net now).2 = 5
    ∧ (idemRaceSuccessCount net ≤ 1 →
        (testIdempotencyRaceCondition endpoint sharedKey net now).1 = [])
    ∧ (2 ≤ idemRaceSuccessCount net →
        ∃ v, (testIdempotencyRaceCondition endpoint sharedKey net now).1 = [v]
          ∧ v.Type' = "Idempotency Race Condition" ∧ v.Severity = "CRITICAL"
          ∧ goContains v.Proof "5" = true
          ∧ goContains v.Proof (toString (idemRaceSuccessCount net)) = true) := by
  refine ⟨?_, ?_, ?_⟩
  · unfold testIdempotencyRaceCondition
    by_cases h : idemRaceSuccessCount net > 1 <;> simp [h, idemRaceConcurrency]
  · intro h
    unfold testIdempotencyRaceCondition
    have h2 : ¬ idemRaceSuccessCount net > 1 := by omega
    simp [h2]
  · intro h
    have h2 : idemRaceSuccessCount net > 1 := by omega
    refine ⟨idemRaceVuln endpoint sharedKey (idemRaceSuccessCount net) now,
      ?_, rfl, rfl, ?_, ?_⟩
    · unfold testIdempotencyRaceCondition
      simp [h2]
    · refine goContains_of_eq "Sent " "5"
        (" concurrent requests with key \x27" ++ (sharedKey ++ ("\x27, "
          ++ (toString (idemRaceSuccessCount net) ++ " succeeded")))) ?_
      have h5 : toString idemRaceConcurrency = "5" := by decide
      simp only [idemRaceVuln, h5, String.append_assoc]
    · refine goContains_of_eq
        ("Sent " ++ toString idemRaceConcurrency
          ++ " concurrent requests with key \x27" ++ sharedKey ++ "\x27, ")
        (toString (idemRaceSuccessCount net)) " succeeded" ?_
      simp [idemRaceVuln, String.append_assoc]

/-- Sample endpoint for the shared-key race round. -/
def epC7 : Endpoint := { URL := "https://shop.example/api/charge", Method := "POST" }

/-- Round outcome where workers 0 and 1 get 2xx, worker 3 errors out. -/
def netC7 : Nat → Option Int := fun i =>
  if i == 0 then some 201
  else if i == 1 then some 200
  else if i == 3 then none
  else some 409

/-- C7 witness: the double-success shared-key round produces the single
CRITICAL finding with both counts in its proof string. -/
theorem C7_concurrent_idempotency_race_witness :
    (testIdempotencyRaceCondition epC7 "shared_key" netC7 0).2 = 5
    ∧ ∃ v, (testIdempotencyRaceCondition epC7 "shared_key" netC7 0).1 = [v]
        ∧ v.Type' = "Idempotency Race Condition" ∧ v.Severity = "CRITICAL"
        ∧ goContains v.Proof "5" = true
        ∧ goContains v.Proof (toString (idemRaceSuccessCount netC7)) = true :=
  ⟨(C7_concurrent_idempotency_race epC7 "shared_key" netC7 0).1,
   (C7_concurrent_idempotency_race epC7 "shared_key" netC7 0).2.2 (by decide)⟩

/-! ## Claim C8

The enhanced race worker builds its request before blocking on the
barrier, but the legacy `race.go` worker first waits on `startSignal` and
only then calls `http.NewRequest`, and the idempotency race worker calls
`sendPaymentRequest` (which builds the request) only after the barrier
releases. The claim as stated over every dispatch worker is false. -/

/-- C8 counterexample: the legacy `race.go` dispatch worker does not
construct its request before blocking on the release barrier — it awaits
the signal first and builds the request afterwards. -/
theorem C8_counterexample_legacy_worker_builds_after_barrier :
    constructsBeforeBarrier raceGoWorkerTrace = false := by decide

/-- C8 amended: only the enhanced race test's dispatch worker fully
constructs its request object before blocking on the shared release
barrier; the legacy `race.go` worker and the concurrent idempotency
worker construct their requests after passing the barrier. -/
theorem C8_only_enhanced_worker_builds_before_barrier :
    constructsBeforeBarrier enhancedWorkerTrace = true
    ∧ constructsBeforeBarrier raceGoWorkerTrace = false
    ∧ constructsBeforeBarrier idemRaceWorkerTrace = false := by decide

/-! ## Claim C9

`utils.NewHTTPClient` installs the `ErrUseLastResponse` redirect policy,
but the client the enhanced race test builds inline leaves `CheckRedirect`
nil, so that client follows redirects and reports the post-redirect
status. The claim over every client used by the core tests is false. -/

/-- C9 counterexample: the enhanced race test's client has no redirect
suppression, and on a `302 → 200` chain it observes `200`, not the
actual first status `302`. -/
theorem C9_counterexample_enhanced_client_follows_redirects :
    (enhancedRaceClient 10).checkRedirectUseLastResponse = false
    ∧ clientObservedStatus (enhancedRaceClient 10) [302, 200] = some 200 := by decide

/-- C9 amended: every client built through `utils.NewHTTPClient` (used by
the legacy race test and the idempotency tests) carries the requested
per-request timeout and has redirect following disabled, observing the
first response status of any chain; the enhanced race test's inline
client carries a 30s timeout but leaves redirect following enabled. -/
theorem C9_factory_clients_see_first_status (timeoutNs concurrency s : Nat)
    (rest : List Nat) :
    (NewHTTPClient timeoutNs).timeoutNs = timeoutNs
    ∧ (NewHTTPClient timeoutNs).checkRedirectUseLastResponse = true
    ∧ clientObservedStatus (NewHTTPClient timeoutNs) (s :: rest) = some s
    ∧ (enhancedRaceClient concurrency).timeoutNs = 30 * 1000000000
    ∧ (enhancedRaceClient concurrency).checkRedirectUseLastResponse = false := by
  refine ⟨rfl, rfl, ?_, rfl, rfl⟩
  simp [clientObservedStatus, NewHTTPClient]

/-! ## Claim C10 -/

/-- C10: for every endpoint whose method is neither POST nor PUT, the
legacy `TestRaceCondition` returns the empty vulnerability list at once,
for every session, concurrency and network behavior, without dispatching
a single request. -/
theorem C10_non_mutating_method_no_dispatch (endpoint : Endpoint)
    (session : Session) (concurrency : Nat) (net : Nat → Option Int) (now : Nat)
    (hpost : endpoint.Method ≠ "POST") (hput : endpoint.Method ≠ "PUT") :
    TestRaceCondition endpoint session concurrency net now = ([], 0) := by
  unfold TestRaceCondition
  rw [if_pos ⟨hpost, hput⟩]

/-- A GET endpoint, not eligible for the race test. -/
def epC10 : Endpoint := { URL := "https://shop.example/api/pay", Method := "GET" }

/-- C10 witness: the GET endpoint is rejected with zero dispatches even
under a network oracle that would answer 200 to everything. -/
theorem C10_non_mutating_method_no_dispatch_witness :
    TestRaceCondition epC10 {} 10 (fun _ => some 200) 0 = ([], 0) :=
  C10_non_mutating_method_no_dispatch epC10 {} 10 (fun _ => some 200) 0
    (by decide) (by decide)
